import Mathlib

/-!
Shallow embedding of the Devil-Server backend (src/index.js): the CMS query
adapter, the four context fetchers, the model-fallback LLM caller and its
single-model analysis variant, and the action handlers and HTTP-envelope
logic the verified properties concern.  External effects (the Wix CMS, the
OpenRouter LLM API, JSON.parse and JSON.stringify) are modelled as explicit
oracles passed to each function, and every function additionally returns the
list of outbound requests it issues, so that fail-fast and fallback-order
properties are expressible.
-/

namespace DevilServer

/-- JS `a || b` for a possibly-undefined string `a`: `undefined` and the
empty string are falsy, so they select the default. -/
def jsOr : Option String → String → String
  | none, d => d
  | some s, d => if s = "" then d else s

/-- JS template interpolation of a possibly-undefined string value:
`undefined` prints as the text "undefined". -/
def jsShow : Option String → String
  | none => "undefined"
  | some s => s

/-- JS `str.trim()`: strip leading and trailing whitespace (the code only
ever trims over ASCII whitespace). -/
def jsTrim (s : String) : String :=
  String.mk (((s.data.dropWhile Char.isWhitespace).reverse.dropWhile Char.isWhitespace).reverse)

/-- JS `!x || x.trim().length === 0` on a possibly-undefined string. -/
def jsBlank : Option String → Bool
  | none => true
  | some s => (jsTrim s).length == 0

/-- JS `str.substring(0, n)`: the first `min n (length str)` characters. -/
def jsSubstring (s : String) (n : Nat) : String := String.mk (s.data.take n)

/-- JS `arr.slice(-n)`: the last `min n (length arr)` elements, in their
original order. -/
def jsSliceLast (n : Nat) (l : List α) : List α := l.drop (l.length - n)

/-- A tag argument as the fetchers receive it: `undefined`, a plain string,
or an array of strings. -/
inductive TagArg where
  | undef
  | str (s : String)
  | list (l : List String)
  deriving DecidableEq

/-- JS truthiness of a tag argument: `undefined` and the empty string are
falsy; an array is always truthy, even when empty. -/
def TagArg.truthy : TagArg → Bool
  | .undef => false
  | .str s => s != ""
  | .list _ => true

/-- The combined guard `!x || x.length === 0` used by three of the four
context fetchers. -/
def TagArg.emptyGuard : TagArg → Bool
  | .undef => true
  | .str s => s.length == 0
  | .list l => l.length == 0

/-- `Array.isArray(x) ? x[0] : x` — the effective single tag; `none` models
the JS `undefined` produced by indexing an empty array. -/
def TagArg.firstTag : TagArg → Option String
  | .undef => none
  | .str s => some s
  | .list l => l.head?

/-- Filter operators used by the fetchers in the Wix query DSL. -/
inductive FilterOp where
  | eq
  | contains
  deriving DecidableEq

/-- One field condition of a Wix CMS query filter; the value may be the JS
`undefined`, which the code can pass when a tag list is empty. -/
structure WixFilter where
  field : String
  op : FilterOp
  value : Option String
  deriving DecidableEq

/-- The query payload `queryWixCMS` sends: collection id, filter, limit. -/
structure Query where
  collection : String
  filter : WixFilter
  limit : Nat
  deriving DecidableEq

/-- Outcome of the one outbound request `queryWixCMS` makes, as the code can
observe it: a thrown transport error, a non-success HTTP status with the
error body text, a success whose body fails to parse as JSON, or a parsed
body whose `dataItems` array may be absent. -/
inductive WixResponse (α : Type) where
  | transportError (message : String)
  | httpError (errorText : String)
  | okMalformed
  | ok (dataItems : Option (List α))

/-- Whether a response is anything other than a well-formed success. -/
def WixResponse.isFailure : WixResponse α → Bool
  | .ok _ => false
  | _ => true

/-- The normalized result shape returned by `queryWixCMS`. -/
structure QueryResult (α : Type) where
  items : List α
  deriving DecidableEq

/-- `queryWixCMS` (src/index.js lines 71-107): normalizes any response into
the uniform items shape; a non-success status, a thrown error and a parse
failure all collapse to the empty item list, and a missing `dataItems`
array defaults to `[]`. -/
def queryWixCMS (resp : WixResponse α) : QueryResult α :=
  match resp with
  | .transportError _ => ⟨[]⟩
  | .httpError _ => ⟨[]⟩
  | .okMalformed => ⟨[]⟩
  | .ok dataItems => ⟨dataItems.getD []⟩

/-- A record of the "Characters" collection as `getCharacterContext` reads
it: `data?.chatbot` may be absent. -/
structure CharItem where
  chatbot : Option String
  deriving DecidableEq

/-- `getCharacterContext` (lines 112-131). -/
def getCharacterContext (net : Query → WixResponse CharItem) (characterTags : TagArg) :
    String × List Query :=
  if characterTags.emptyGuard then ("", [])
  else
    let q : Query := ⟨"Characters", ⟨"charactertags", .eq, characterTags.firstTag⟩, 1⟩
    match (queryWixCMS (net q)).items with
    | item :: _ => (jsOr item.chatbot "", [q])
    | [] => ("", [q])

/-- A stored chat message inside a serialized chat box, as `handleDevilPOV`
later reads it (fields `type` and `text`). -/
structure StoredMsg where
  type : Option String
  text : Option String
  deriving DecidableEq

/-- The `data?.chatBox` field of a "ChatWithCharacters" record: absent,
serialized text (to be decoded with JSON.parse), or an already-parsed
message array. -/
inductive ChatBoxVal where
  | undef
  | str (s : String)
  | arr (msgs : List StoredMsg)
  deriving DecidableEq

/-- A record of the "ChatWithCharacters" collection. -/
structure ChatSessionItem where
  chatBox : ChatBoxVal
  deriving DecidableEq

/-- One decoded chat session. -/
structure Session where
  messages : List StoredMsg
  deriving DecidableEq

/-- `getChatHistory` (lines 136-167).  Note the guard: it checks only
`!characterTags`, not `length === 0`, so an empty array — which is truthy
in JS — falls through to the CMS query, with an `undefined` first tag.
`parse` models `JSON.parse` on a string chat box; `none` models a throw,
which the per-record try/catch converts to an empty message list. -/
def getChatHistory (net : Query → WixResponse ChatSessionItem)
    (parse : String → Option (List StoredMsg)) (characterTags : TagArg) :
    List Session × List Query :=
  if characterTags.truthy = false then ([], [])
  else
    let q : Query := ⟨"ChatWithCharacters", ⟨"charactertags", .eq, characterTags.firstTag⟩, 5⟩
    ((queryWixCMS (net q)).items.map (fun item =>
      match item.chatBox with
      | .undef => ⟨[]⟩
      | .arr msgs => ⟨msgs⟩
      | .str s => ⟨(parse s).getD []⟩),
     [q])

/-- A record of the "BackupChapters" collection: `data?.title` and
`data?.chapterContent` may each be absent. -/
structure ChapterItem where
  title : Option String
  chapterContent : Option String
  deriving DecidableEq

/-- The pair `getRelatedChapters` produces per record. -/
structure Chapter where
  title : String
  content : String
  deriving DecidableEq

/-- `getRelatedChapters` (lines 172-196): content is
`(chapterContent || "").substring(0, 1500)`. -/
def getRelatedChapters (net : Query → WixResponse ChapterItem) (storyTags : TagArg) :
    List Chapter × List Query :=
  if storyTags.emptyGuard then ([], [])
  else
    let q : Query := ⟨"BackupChapters", ⟨"storyTag", .eq, storyTags.firstTag⟩, 3⟩
    ((queryWixCMS (net q)).items.map (fun item =>
      ⟨jsOr item.title "Untitled", jsSubstring (jsOr item.chapterContent "") 1500⟩),
     [q])

/-- A record of the "Catalyst" collection; its `data` payload is arbitrary
structured content that the fetcher serializes whole. -/
structure CatalystItem (γ : Type) where
  data : γ

/-- `getCatalystIntel` (lines 201-222): a substring-contains lookup on the
`title` field; `stringify` models `JSON.stringify(data, null, 2)`. -/
def getCatalystIntel (stringify : γ → String) (net : Query → WixResponse (CatalystItem γ))
    (catalystTags : TagArg) : String × List Query :=
  if catalystTags.emptyGuard then ("", [])
  else
    let q : Query := ⟨"Catalyst", ⟨"title", .contains, catalystTags.firstTag⟩, 1⟩
    match (queryWixCMS (net q)).items with
    | item :: _ => (stringify item.data, [q])
    | [] => ("", [q])

/-- One chat message of an outbound LLM conversation. -/
structure ChatMsg where
  role : String
  content : String
  deriving DecidableEq

/-- The body of one outbound chat-completion request. -/
structure LLMRequest where
  model : String
  messages : List ChatMsg
  temperature : ℚ
  maxTokens : Nat
  deriving DecidableEq

/-- Outcome of one outbound LLM request as the code can observe it: a
thrown transport error (with its message), a non-success HTTP status (with
the error body text), or a success whose first choice carries the
generated content. -/
inductive ModelOutcome where
  | transportError (message : String)
  | httpError (errorText : String)
  | ok (content : String)
  deriving DecidableEq

/-- Whether a model attempt succeeded. -/
def ModelOutcome.isOk : ModelOutcome → Bool
  | .ok _ => true
  | _ => false

def PRIMARY_MODEL : String := "deepseek/deepseek-chat-v3.1"

def BACKUP_MODEL : String := "deepseek/deepseek-v3.2"

def TERTIARY_MODEL : String := "mistralai/mistral-large"

/-- The candidate loop of `callAI` (lines 29-65): try each model in order,
returning the first success; a non-success status or a thrown error
advances to the next candidate; exhaustion raises "All models failed".
Also returns the outbound requests actually issued, in order. -/
def tryModels (net : LLMRequest → ModelOutcome) (messages : List ChatMsg)
    (temperature : ℚ) (maxTokens : Nat) :
    List String → Except String String × List LLMRequest
  | [] => (.error "All models failed", [])
  | m :: rest =>
    let req : LLMRequest := ⟨m, messages, temperature, maxTokens⟩
    match net req with
    | .ok content => (.ok content, [req])
    | _ =>
      let r := tryModels net messages temperature maxTokens rest
      (r.1, req :: r.2)

/-- `callAI` (lines 21-66): fails fast with a configuration error when no
API key is set (source defaults: temperature 0.9, maxTokens 2500, made
explicit here), else runs the fallback loop over the three fixed models. -/
def callAI (net : LLMRequest → ModelOutcome) (apiKey : Option String)
    (messages : List ChatMsg) (temperature : ℚ) (maxTokens : Nat) :
    Except String String × List LLMRequest :=
  match apiKey with
  | none => (.error "No API key configured", [])
  | some _ =>
    tryModels net messages temperature maxTokens [PRIMARY_MODEL, BACKUP_MODEL, TERTIARY_MODEL]

/-- `callClaudeForAnalysis` (lines 684-723): one fixed model, fixed
temperature 0.3, no fallback; a non-success status is rethrown as a
"Claude API failed" error and any thrown transport error propagates. -/
def callClaudeForAnalysis (net : LLMRequest → ModelOutcome) (apiKey : Option String)
    (messages : List ChatMsg) (maxTokens : Nat) : Except String String × List LLMRequest :=
  match apiKey with
  | none => (.error "No API key configured", [])
  | some _ =>
    let req : LLMRequest := ⟨"openai/gpt-3.5-turbo", messages, 0.3, maxTokens⟩
    match net req with
    | .ok content => (.ok content, [req])
    | .httpError e => (.error ("Claude API failed: " ++ e), [req])
    | .transportError m => (.error m, [req])

/-- `handleTagGeneration` (lines 1031-1083).  After the name and API-key
guards, the prompt template reads the identifier `existingTags`, which is
declared nowhere in the file; in JS this raises
`ReferenceError: existingTags is not defined` before the outbound request
is built, so with a key configured the function throws without reaching
the network. -/
def handleTagGeneration (_net : LLMRequest → ModelOutcome) (apiKey : Option String)
    (name : Option String) (_tagType : String) : Except String String × List LLMRequest :=
  if jsBlank name then (.error "No name provided for tag generation", [])
  else
    match apiKey with
    | none => (.error "No API key configured", [])
    | some _ => (.error "existingTags is not defined", [])

/-- A JS value as it appears in a response body written by the endpoint. -/
inductive JsVal where
  | undef
  | str (s : String)
  | num (n : Nat)
  deriving DecidableEq

/-- One response write: HTTP status plus the JSON body's fields in order. -/
structure ResponseWrite where
  status : Nat
  body : List (String × JsVal)
  deriving DecidableEq

/-- The identifier environment visible inside the endpoint's catch block:
`err` is the caught error; the try block's `const startTime` and
`let result` (lines 229 and 237) are block-scoped to the try block and are
not visible here. -/
def catchEnv (errMessage : String) : String → Option JsVal := fun x =>
  if x = "err" then some (.str errMessage) else none

/-- Argument object of the second `res.json` call in the catch block
(lines 316-320): evaluating it looks up `result` and then `startTime`; an
unbound identifier aborts evaluation with a JS ReferenceError, in which
case the write never happens. -/
def secondWriteBody (env : String → Option JsVal) : Option (List (String × JsVal)) := do
  let r ← env "result"
  let st ← env "startTime"
  pure [("status", .str "success"), ("markers", r), ("processingTime", st)]

/-- The catch branch of the `/devil-pov` route (lines 310-321): it writes
the 500 error envelope, then attempts a second `res.json` whose argument
evaluation requires `result` and `startTime` from the environment. -/
def devilPovCatchWrites (env : String → Option JsVal) (action : Option String)
    (errMessage : String) : List ResponseWrite :=
  let w1 : ResponseWrite :=
    ⟨500, [("error", .str (jsOr action "Action" ++ " failed")), ("details", .str errMessage)]⟩
  match secondWriteBody env with
  | some b => [w1, ⟨200, b⟩]
  | none => [w1]

/-- The success write of the `/devil-pov` route (lines 303-308) for a
string result: `charsGenerated` is the result's length. -/
def devilPovSuccessWrite (result : String) (processingTime : Nat) : ResponseWrite :=
  ⟨200, [("status", .str "success"), ("result", .str result),
         ("charsGenerated", .num result.length), ("processingTime", .num processingTime)]⟩

/-- The response writes the `/devil-pov` route performs, given the
dispatched handler's outcome (success value or thrown error message). -/
def devilPovResponse (handlerResult : Except String String) (action : Option String)
    (processingTime : Nat) : List ResponseWrite :=
  match handlerResult with
  | .ok r => [devilPovSuccessWrite r processingTime]
  | .error e => devilPovCatchWrites (catchEnv e) action e

/-- System message of `handleNoMercy` (lines 392-396). -/
def noMercySystemPrompt : String :=
  "You are a merciless editor who rewrites text to be DARKER, MORE INTENSE, and MORE VISCERAL. Show no mercy. Make every word count. Amplify emotions, darken the tone, and make the prose more powerful and disturbing. Return ONLY the rewritten text with no explanations."

/-- The two-message conversation `handleNoMercy` builds (lines 392-401). -/
def noMercyMessages (selectedText : String) : List ChatMsg :=
  [⟨"system", noMercySystemPrompt⟩,
   ⟨"user", "Rewrite this with NO MERCY - make it darker, more intense, more powerful:\n\n" ++ selectedText⟩]

/-- `handleNoMercy` (lines 385-404), parameterized over the model caller so
that end-to-end behaviour can be stated with a stubbed caller; the source
calls `callAI(messages, 0.9, 1500)`. -/
def handleNoMercy (ai : List ChatMsg → ℚ → Nat → Except String String)
    (selectedText : Option String) : Except String String :=
  if jsBlank selectedText then .error "No text selected for rewrite"
  else ai (noMercyMessages (selectedText.getD "")) 0.9 1500

/-- The body fields of a `characterChat` request as `handleCharacterChat`
destructures them (line 473) — note that `catalystTags`, though a client
may send it, is not among the destructured names and is carried here only
to state that the handler ignores it.  Tag fields are typed as optional
arrays, the shape every caller of this action supplies. -/
structure CharacterChatReq where
  userMessage : Option String
  characterName : Option String
  personaType : Option String
  chatbotInstructions : Option String
  characterTags : Option (List String)
  storyTags : Option (List String)
  toneTags : Option (List String)
  chatHistory : Option (List ChatMsg)
  catalystTags : Option (List String)

/-- Coerce an optional string array into the tag-argument shape the
fetchers receive. -/
def tagOfList : Option (List String) → TagArg
  | none => .undef
  | some l => .list l

/-- The oracles standing for the Wix CMS and the JSON codec, bundled. -/
structure CmsBackend (γ : Type) where
  characters : Query → WixResponse CharItem
  chats : Query → WixResponse ChatSessionItem
  chapters : Query → WixResponse ChapterItem
  catalysts : Query → WixResponse (CatalystItem γ)
  parseChatBox : String → Option (List StoredMsg)
  stringifyCatalyst : γ → String

/-- The system-prompt construction of `handleCharacterChat`
(lines 551-579), transcribed clause by clause from the source. -/
def buildCharacterChatPrompt (characterName personaType chatbotInstructions : Option String)
    (characterTags storyTags toneTags : Option (List String))
    (characterContext : String) (relatedChapters : List Chapter)
    (catalystIntel : String) : String :=
  let characterTraits := match characterTags with
    | some l => if 0 < l.length then "Your character traits: " ++ String.intercalate ", " l else ""
    | none => ""
  let storyContext := match storyTags with
    | some l => if 0 < l.length then "Story tags: " ++ String.intercalate ", " l else ""
    | none => ""
  let toneContext := match toneTags with
    | some l => if 0 < l.length then "Your tone: " ++ String.intercalate ", " l else ""
    | none => ""
  let personalityContext := jsOr chatbotInstructions characterContext
  let sys0 := "You are " ++ jsShow characterName ++ ", a dark and complex character. Stay in character at all times. Be dark, intense, and true to your nature.\n\n"
  let sys1 := if personalityContext != "" then
      sys0 ++ "YOUR CORE PERSONALITY:\n" ++ personalityContext ++ "\n\n"
    else sys0
  let sys2 := sys1 ++ characterTraits ++ "\n" ++ storyContext ++ "\n" ++ toneContext
  let sys3 := if personaType = some "author-mode" then
      "You are " ++ jsShow characterName ++ ", and you are AWARE you\x27re a character created by this author. Be meta. Be accusatory. Question their choices. Challenge them. Make them uncomfortable about what they\x27ve written. Be dark and intense, blurring the line between fiction and reality.\n\n" ++ personalityContext
    else sys2
  let sys4 := if catalystIntel != "" then sys3 ++ "\n\nNARRATIVE CATALYST:\n" ++ catalystIntel
    else sys3
  if 0 < relatedChapters.length then
    relatedChapters.foldl (fun acc ch => acc ++ "[" ++ ch.title ++ "]\n" ++ ch.content ++ "\n\n")
      (sys4 ++ "\n\nRELATED CHAPTERS YOU APPEAR IN:\n")
  else sys4

/-- The system prompt `handleCharacterChat` builds for a request, from the
context its four parallel fetches return.  Note lines 494-499: the catalyst
fetch is keyed by `characterTags`, not by any catalyst tag, and the fetched
previous-session chat history is only logged, never placed in the prompt. -/
def characterChatSystemPrompt (be : CmsBackend γ) (req : CharacterChatReq) : String :=
  buildCharacterChatPrompt req.characterName req.personaType req.chatbotInstructions
    req.characterTags req.storyTags req.toneTags
    (getCharacterContext be.characters (tagOfList req.characterTags)).1
    (getRelatedChapters be.chapters (tagOfList req.storyTags)).1
    (getCatalystIntel be.stringifyCatalyst be.catalysts (tagOfList req.characterTags)).1

/-- `handleCharacterChat` (lines 473-600): validation, the four parallel
context fetches, prompt construction, and the outbound conversation
`[system] ++ chatHistory.slice(-70) ++ [user]` passed to
`callAI(messages, 0.85, 500)`.  Returns the result, the CMS queries issued
(in the order the fetches are listed), and the LLM requests issued. -/
def handleCharacterChat (be : CmsBackend γ) (net : LLMRequest → ModelOutcome)
    (apiKey : Option String) (req : CharacterChatReq) :
    Except String String × List Query × List LLMRequest :=
  if jsBlank req.userMessage then (.error "No message provided", [], [])
  else
    let cc := getCharacterContext be.characters (tagOfList req.characterTags)
    let hist := getChatHistory be.chats be.parseChatBox (tagOfList req.characterTags)
    let chaps := getRelatedChapters be.chapters (tagOfList req.storyTags)
    let cat := getCatalystIntel be.stringifyCatalyst be.catalysts (tagOfList req.characterTags)
    let messages := ChatMsg.mk "system" (characterChatSystemPrompt be req) ::
      (jsSliceLast 70 (req.chatHistory.getD []) ++
        [ChatMsg.mk "user" (req.userMessage.getD "")])
    let r := callAI net apiKey messages 0.85 500
    (r.1, cc.2 ++ hist.2 ++ chaps.2 ++ cat.2, r.2)

/-- One structured finding produced by an analysis handler. -/
structure Marker where
  icon : String
  type : String
  message : String
  detail : String
  deriving DecidableEq

/-- The persona strings of `handleAICritic` (lines 935-940). -/
def coldEditorPersona : String :=
  "You are a cold, ruthless editor who has seen thousands of manuscripts. You care about craft, not feelings. Be direct, surgical, and focus on what WORKS and what DOESN\x27T."

def marketHawkPersona : String :=
  "You are a market-savvy publishing hawk who knows what SELLS. Evaluate commercial viability, genre expectations, and reader engagement. Be pragmatic and business-focused."

def literaryJudgePersona : String :=
  "You are a literary fiction judge who values prose artistry, thematic depth, and narrative innovation. Be intellectual and demanding about craft excellence."

def darkRomanceGatekeeperPersona : String :=
  "You are a dark romance gatekeeper who knows the genre inside out. Judge heat levels, power dynamics, emotional stakes, and whether this delivers what readers crave. Be fierce."

/-- The persona table lookup `personas[persona]`. -/
def aiCriticPersonas (k : String) : Option String :=
  if k = "cold_editor" then some coldEditorPersona
  else if k = "market_hawk" then some marketHawkPersona
  else if k = "literary_judge" then some literaryJudgePersona
  else if k = "dark_romance_gatekeeper" then some darkRomanceGatekeeperPersona
  else none

/-- `personas[persona] || personas.cold_editor` (line 942). -/
def selectedPersona (persona : String) : String :=
  (aiCriticPersonas persona).getD coldEditorPersona

/-- JS `str.replace(pattern, r)` with a plain-string pattern replaces only
the first occurrence; this is the character-level version for a one-char
pattern. -/
def jsReplaceFirstChar (c r : Char) : List Char → List Char
  | [] => []
  | x :: xs => if x = c then r :: xs else x :: jsReplaceFirstChar c r xs

/-- `persona.replace(underscore, space)`: first underscore only. -/
def jsReplaceFirstUnderscore (s : String) : String :=
  String.mk (jsReplaceFirstChar (Char.ofNat 95) (Char.ofNat 32) s.data)

/-- JS `str.toUpperCase()` (ASCII, which is all the code feeds it). -/
def jsToUpperCase (s : String) : String := String.mk (s.data.map Char.toUpper)

/-- Template text of the `ai_critic` prompt between the persona text and
the interpolated marker type (lines 947-961). -/
def aiCriticPromptMid : String :=
  "\n\nRead this chapter and provide your assessment in under 500 words.\n\nFocus on:\n- What works\n- What doesn\x27t\n- Biggest issue to fix\n- Overall verdict\n\nNO EDITS. Only assessment.\n\nReturn as JSON array with ONE marker:\n- \"icon\": \"🎭\"\n- \"type\": \""

/-- Template text of the `ai_critic` prompt after the interpolated marker
type (lines 961-968). -/
def aiCriticPromptTail : String :=
  "\"\n- \"message\": \"Overall Assessment\"\n- \"detail\": Your full critique (under 500 words)\n\nReturn ONLY valid JSON array.\n\nChapter text:\n"

/-- The full `ai_critic` prompt (lines 944-970): the selected persona text,
the fixed template, the marker type interpolated from the RAW persona key
(first underscore replaced by a space, uppercased), and the chapter text. -/
def buildAICriticPrompt (text persona : String) : String :=
  selectedPersona persona ++ aiCriticPromptMid ++
    jsToUpperCase (jsReplaceFirstUnderscore persona) ++ aiCriticPromptTail ++ text

/-- The fence-marker removal `response.replace(fenceRegex, empty)` used by
the analysis handlers: the regex alternation removes every occurrence of
"\x60\x60\x60json" or "\x60\x60\x60", scanning left to right with the
longer alternative first. -/
def stripFenceMarkers : List Char → List Char
  | [] => []
  | c :: cs =>
    if List.take 7 (c :: cs) = String.data "\x60\x60\x60json" then
      stripFenceMarkers (List.drop 6 cs)
    else if List.take 3 (c :: cs) = String.data "\x60\x60\x60" then
      stripFenceMarkers (List.drop 2 cs)
    else
      c :: stripFenceMarkers cs
termination_by l => l.length
decreasing_by
  all_goals simp [List.length_drop]
  all_goals omega

/-- Fence stripping followed by `.trim()` (line 975). -/
def stripFences (s : String) : String := jsTrim (String.mk (stripFenceMarkers s.data))

/-- `handleAICritic` (lines 928-980): validation, prompt construction,
the single-model analysis call, then fence-stripping and JSON parsing of
the response (`jparse none` models a JSON.parse throw). -/
def handleAICritic (net : LLMRequest → ModelOutcome) (apiKey : Option String)
    (jparse : String → Option (List Marker)) (text : Option String) (persona : String) :
    Except String (List Marker) × List LLMRequest :=
  if jsBlank text then (.error "No text provided for critique", [])
  else
    let prompt := buildAICriticPrompt (text.getD "") persona
    let r := callClaudeForAnalysis net apiKey [ChatMsg.mk "user" prompt] 3500
    match r.1 with
    | .error e => (.error e, r.2)
    | .ok response =>
      match jparse (stripFences response) with
      | some markers => (.ok markers, r.2)
      | none => (.error "Failed to parse critic response", r.2)

/-! Helper lemmas shared by several verified properties. -/

/-- Every request the fallback loop issues carries the caller's messages,
temperature and token budget. -/
theorem tryModels_attempt_messages (net : LLMRequest → ModelOutcome) (msgs : List ChatMsg)
    (t : ℚ) (mt : Nat) (ms : List String) :
    ∀ r ∈ (tryModels net msgs t mt ms).2, r.messages = msgs := by
  induction ms with
  | nil => simp [tryModels]
  | cons m rest ih =>
    cases h : net ⟨m, msgs, t, mt⟩ with
    | ok c => simp [tryModels, h]
    | transportError e =>
      simp only [tryModels, h, List.mem_cons]
      rintro r (rfl | hr)
      · rfl
      · exact ih r hr
    | httpError e =>
      simp only [tryModels, h, List.mem_cons]
      rintro r (rfl | hr)
      · rfl
      · exact ih r hr

/-- With at least one candidate configured, the fallback loop issues at
least one request. -/
theorem tryModels_attempts_ne_nil (net : LLMRequest → ModelOutcome) (msgs : List ChatMsg)
    (t : ℚ) (mt : Nat) (m : String) (rest : List String) :
    (tryModels net msgs t mt (m :: rest)).2 ≠ [] := by
  cases h : net ⟨m, msgs, t, mt⟩ <;> simp [tryModels, h]

/-- C1: with a key configured, `callAI` tries primary, backup and tertiary
in order; the first candidate whose request succeeds has its content
returned with no later candidate attempted, and if all three candidates
fail the call fails with the "All models failed" error after attempting
exactly the three requests. -/
theorem callAI_fallback_contract (net : LLMRequest → ModelOutcome) (k : String)
    (msgs : List ChatMsg) (t : ℚ) (mt : Nat) :
    (∀ c, net ⟨PRIMARY_MODEL, msgs, t, mt⟩ = .ok c →
      callAI net (some k) msgs t mt = (.ok c, [⟨PRIMARY_MODEL, msgs, t, mt⟩])) ∧
    (∀ c, (net ⟨PRIMARY_MODEL, msgs, t, mt⟩).isOk = false →
      net ⟨BACKUP_MODEL, msgs, t, mt⟩ = .ok c →
      callAI net (some k) msgs t mt =
        (.ok c, [⟨PRIMARY_MODEL, msgs, t, mt⟩, ⟨BACKUP_MODEL, msgs, t, mt⟩])) ∧
    (∀ c, (net ⟨PRIMARY_MODEL, msgs, t, mt⟩).isOk = false →
      (net ⟨BACKUP_MODEL, msgs, t, mt⟩).isOk = false →
      net ⟨TERTIARY_MODEL, msgs, t, mt⟩ = .ok c →
      callAI net (some k) msgs t mt =
        (.ok c, [⟨PRIMARY_MODEL, msgs, t, mt⟩, ⟨BACKUP_MODEL, msgs, t, mt⟩,
                 ⟨TERTIARY_MODEL, msgs, t, mt⟩])) ∧
    ((net ⟨PRIMARY_MODEL, msgs, t, mt⟩).isOk = false →
      (net ⟨BACKUP_MODEL, msgs, t, mt⟩).isOk = false →
      (net ⟨TERTIARY_MODEL, msgs, t, mt⟩).isOk = false →
      callAI net (some k) msgs t mt =
        (.error "All models failed",
         [⟨PRIMARY_MODEL, msgs, t, mt⟩, ⟨BACKUP_MODEL, msgs, t, mt⟩,
          ⟨TERTIARY_MODEL, msgs, t, mt⟩])) := by
  refine ⟨?_, ?_, ?_, ?_⟩
  · intro c h
    simp [callAI, tryModels, h]
  · intro c hP hB
    cases h1 : net ⟨PRIMARY_MODEL, msgs, t, mt⟩ with
    | ok c1 => rw [h1] at hP; simp [ModelOutcome.isOk] at hP
    | transportError e => simp [callAI, tryModels, h1, hB]
    | httpError e => simp [callAI, tryModels, h1, hB]
  · intro c hP hB hT
    cases h1 : net ⟨PRIMARY_MODEL, msgs, t, mt⟩ with
    | ok c1 => rw [h1] at hP; simp [ModelOutcome.isOk] at hP
    | transportError e1 =>
      cases h2 : net ⟨BACKUP_MODEL, msgs, t, mt⟩ with
      | ok c2 => rw [h2] at hB; simp [ModelOutcome.isOk] at hB
      | transportError e2 => simp [callAI, tryModels, h1, h2, hT]
      | httpError e2 => simp [callAI, tryModels, h1, h2, hT]
    | httpError e1 =>
      cases h2 : net ⟨BACKUP_MODEL, msgs, t, mt⟩ with
      | ok c2 => rw [h2] at hB; simp [ModelOutcome.isOk] at hB
      | transportError e2 => simp [callAI, tryModels, h1, h2, hT]
      | httpError e2 => simp [callAI, tryModels, h1, h2, hT]
  · intro hP hB hT
    cases h1 : net ⟨PRIMARY_MODEL, msgs, t, mt⟩ with
    | ok c1 => rw [h1] at hP; simp [ModelOutcome.isOk] at hP
    | transportError e1 =>
      cases h2 : net ⟨BACKUP_MODEL, msgs, t, mt⟩ with
      | ok c2 => rw [h2] at hB; simp [ModelOutcome.isOk] at hB
      | transportError e2 =>
        cases h3 : net ⟨TERTIARY_MODEL, msgs, t, mt⟩ with
        | ok c3 => rw [h3] at hT; simp [ModelOutcome.isOk] at hT
        | transportError e3 => simp [callAI, tryModels, h1, h2, h3]
        | httpError e3 => simp [callAI, tryModels, h1, h2, h3]
      | httpError e2 =>
        cases h3 : net ⟨TERTIARY_MODEL, msgs, t, mt⟩ with
        | ok c3 => rw [h3] at hT; simp [ModelOutcome.isOk] at hT
        | transportError e3 => simp [callAI, tryModels, h1, h2, h3]
        | httpError e3 => simp [callAI, tryModels, h1, h2, h3]
    | httpError e1 =>
      cases h2 : net ⟨BACKUP_MODEL, msgs, t, mt⟩ with
      | ok c2 => rw [h2] at hB; simp [ModelOutcome.isOk] at hB
      | transportError e2 =>
        cases h3 : net ⟨TERTIARY_MODEL, msgs, t, mt⟩ with
        | ok c3 => rw [h3] at hT; simp [ModelOutcome.isOk] at hT
        | transportError e3 => simp [callAI, tryModels, h1, h2, h3]
        | httpError e3 => simp [callAI, tryModels, h1, h2, h3]
      | httpError e2 =>
        cases h3 : net ⟨TERTIARY_MODEL, msgs, t, mt⟩ with
        | ok c3 => rw [h3] at hT; simp [ModelOutcome.isOk] at hT
        | transportError e3 => simp [callAI, tryModels, h1, h2, h3]
        | httpError e3 => simp [callAI, tryModels, h1, h2, h3]

/-- An oracle for the C1 witness: the primary model returns a non-success
status, the backup succeeds. -/
def c1Oracle : LLMRequest → ModelOutcome := fun r =>
  if r.model = PRIMARY_MODEL then .httpError "429" else .ok "backup content"

/-- Witness for C1: with the primary failing and the backup succeeding, the
backup's content is returned and exactly two requests are issued. -/
theorem callAI_fallback_contract_witness :
    callAI c1Oracle (some "key") [] 1 1 =
      (.ok "backup content", [⟨PRIMARY_MODEL, [], 1, 1⟩, ⟨BACKUP_MODEL, [], 1, 1⟩]) :=
  (callAI_fallback_contract c1Oracle "key" [] 1 1).2.1 "backup content" (by decide) (by decide)

/-- C2: with no provider credential configured, the fallback caller, the
single-model analysis caller, and tag generation (once past its own
name-presence check) each fail with the configuration error and issue no
outbound request. -/
theorem no_credential_fails_fast (net1 net2 net3 : LLMRequest → ModelOutcome)
    (msgs msgs2 : List ChatMsg) (t : ℚ) (mt mt2 : Nat) (name : Option String)
    (tagType : String) (hname : jsBlank name = false) :
    callAI net1 none msgs t mt = (.error "No API key configured", []) ∧
    callClaudeForAnalysis net2 none msgs2 mt2 = (.error "No API key configured", []) ∧
    handleTagGeneration net3 none name tagType = (.error "No API key configured", []) := by
  refine ⟨rfl, rfl, ?_⟩
  simp [handleTagGeneration, hname]

/-- Witness for C2 at a concrete non-blank name. -/
theorem no_credential_fails_fast_witness :
    callAI (fun _ => .ok "x") none [] 1 1 = (.error "No API key configured", []) ∧
    callClaudeForAnalysis (fun _ => .ok "x") none [] 1 = (.error "No API key configured", []) ∧
    handleTagGeneration (fun _ => .ok "x") none (some "Amy") "character" =
      (.error "No API key configured", []) :=
  no_credential_fails_fast (fun _ => .ok "x") (fun _ => .ok "x") (fun _ => .ok "x")
    [] [] 1 1 1 (some "Amy") "character" (by decide)

/-- C4: the CMS query adapter never propagates an error — every transport
failure, non-success status or malformed body yields the empty item list,
and a success yields the response's record array, or the empty list when
that array is absent. -/
theorem queryWixCMS_total_contract {α : Type} (resp : WixResponse α) :
    (resp.isFailure = true → queryWixCMS resp = ⟨[]⟩) ∧
    (∀ items, resp = .ok (some items) → queryWixCMS resp = ⟨items⟩) ∧
    (resp = .ok none → queryWixCMS resp = ⟨[]⟩) := by
  cases resp with
  | ok dataItems => cases dataItems <;> simp [queryWixCMS, WixResponse.isFailure]
  | transportError m => simp [queryWixCMS, WixResponse.isFailure]
  | httpError e2 => simp [queryWixCMS, WixResponse.isFailure]
  | okMalformed => simp [queryWixCMS, WixResponse.isFailure]

/-- Witness for C4 at a concrete non-success response. -/
theorem queryWixCMS_total_contract_witness :
    queryWixCMS (WixResponse.httpError "boom" : WixResponse Nat) = ⟨[]⟩ :=
  (queryWixCMS_total_contract (WixResponse.httpError "boom" : WixResponse Nat)).1 rfl

/-- C5: when the dispatched handler throws, the endpoint performs exactly
one response write — the 500 failure envelope naming the action and the
error message.  The source's second `res.json` in the catch block never
writes: evaluating its argument object looks up `result`, which is
block-scoped to the try block and unbound in the catch scope, so the JS
ReferenceError aborts the statement before the write. -/
theorem endpoint_single_error_response (action : Option String) (e : String) (pt : Nat) :
    devilPovResponse (.error e) action pt =
      [⟨500, [("error", .str (jsOr action "Action" ++ " failed")), ("details", .str e)]⟩] ∧
    secondWriteBody (catchEnv e) = none := by
  exact ⟨rfl, rfl⟩

/-- The stubbed model caller of the C8 scenario. -/
def noMercyStub : List ChatMsg → ℚ → Nat → Except String String :=
  fun _ _ _ => .ok "The sky bled violet fury."

/-- Counterexample to C8 as stated: the success envelope for the stubbed
noMercy request carries charsGenerated 25, not 27 — the stub text
"The sky bled violet fury." has 25 characters. -/
theorem noMercy_charsGenerated_not_27 :
    devilPovResponse (handleNoMercy noMercyStub (some "The sky was blue.")) (some "noMercy") 0 =
      [⟨200, [("status", .str "success"), ("result", .str "The sky bled violet fury."),
              ("charsGenerated", .num 25), ("processingTime", .num 0)]⟩] ∧
    (25 : Nat) ≠ 27 := by
  exact ⟨by decide, by decide⟩

/-- C8 (amended): the stubbed noMercy POST yields the success envelope with
the stub text as result and charsGenerated 25 — the length of the result. -/
theorem noMercy_envelope (pt : Nat) :
    handleNoMercy noMercyStub (some "The sky was blue.") = .ok "The sky bled violet fury." ∧
    devilPovResponse (handleNoMercy noMercyStub (some "The sky was blue.")) (some "noMercy") pt =
      [⟨200, [("status", .str "success"), ("result", .str "The sky bled violet fury."),
              ("charsGenerated", .num "The sky bled violet fury.".length),
              ("processingTime", .num pt)]⟩] ∧
    "The sky bled violet fury.".length = 25 := by
  have h1 : handleNoMercy noMercyStub (some "The sky was blue.") =
      .ok "The sky bled violet fury." := by rfl
  refine ⟨h1, ?_, by decide⟩
  rw [h1]
  rfl

/-- Counterexample to C3 as stated: `getChatHistory` given an EMPTY tag
list does not return its default without a CMS query — an empty array is
truthy in JS and its guard checks only `!characterTags`, so it issues the
ChatWithCharacters query with an `undefined` tag value. -/
theorem chatHistory_empty_list_counterexample :
    (getChatHistory (fun _ => .ok (some [])) (fun _ => none) (TagArg.list [])).2 =
      [⟨"ChatWithCharacters", ⟨"charactertags", .eq, none⟩, 5⟩] ∧
    (getChatHistory (fun _ => .ok (some [])) (fun _ => none) (TagArg.list [])).2 ≠ [] := by
  exact ⟨rfl, by decide⟩

/-- C3 (amended): character context, related chapters and catalyst intel
return their empty defaults immediately, with no CMS query, for any
undefined or empty tag argument (including the empty list); chat history
does so only for a falsy argument (undefined or empty string) — for an
empty tag list it issues the CMS query, with an undefined filter value. -/
theorem context_fetchers_empty_default (γ : Type) (net1 : Query → WixResponse CharItem)
    (net2 : Query → WixResponse ChatSessionItem) (net3 : Query → WixResponse ChapterItem)
    (net4 : Query → WixResponse (CatalystItem γ)) (stringify : γ → String)
    (parse : String → Option (List StoredMsg)) (t u : TagArg)
    (hg : t.emptyGuard = true) (hu : u.truthy = false) :
    getCharacterContext net1 t = ("", []) ∧
    getRelatedChapters net3 t = ([], []) ∧
    getCatalystIntel stringify net4 t = ("", []) ∧
    getChatHistory net2 parse u = ([], []) ∧
    (getChatHistory net2 parse (TagArg.list [])).2 =
      [⟨"ChatWithCharacters", ⟨"charactertags", .eq, none⟩, 5⟩] := by
  refine ⟨?_, ?_, ?_, ?_, rfl⟩
  · simp [getCharacterContext, hg]
  · simp [getRelatedChapters, hg]
  · simp [getCatalystIntel, hg]
  · simp [getChatHistory, hu]

/-- Witness for C3 (amended) at the empty tag list and the undefined tag. -/
theorem context_fetchers_empty_default_witness :
    getCharacterContext (fun _ => .okMalformed) (TagArg.list []) = ("", []) ∧
    getRelatedChapters (fun _ => .okMalformed) (TagArg.list []) = ([], []) ∧
    getCatalystIntel (fun _ => "") (fun _ => (.okMalformed : WixResponse (CatalystItem Unit)))
      (TagArg.list []) = ("", []) ∧
    getChatHistory (fun _ => .okMalformed) (fun _ => none) TagArg.undef = ([], []) ∧
    (getChatHistory (fun _ => .okMalformed) (fun _ => none) (TagArg.list [])).2 =
      [⟨"ChatWithCharacters", ⟨"charactertags", .eq, none⟩, 5⟩] :=
  context_fetchers_empty_default Unit (fun _ => .okMalformed) (fun _ => .okMalformed)
    (fun _ => .okMalformed) (fun _ => .okMalformed) (fun _ => "") (fun _ => none)
    (TagArg.list []) TagArg.undef (by decide) (by decide)

/-- C7: for a non-empty story tag, the related-chapters lookup maps each
returned record to its title (defaulted) and its body truncated by
`substring(0, 1500)`; every returned content has at most 1500 characters,
and a stored body longer than 1500 characters yields a content of exactly
1500 characters that is an initial segment of the body. -/
theorem relatedChapters_truncation (net : Query → WixResponse ChapterItem) (t : TagArg)
    (h : t.emptyGuard = false) :
    (getRelatedChapters net t).1 =
      (queryWixCMS (net ⟨"BackupChapters", ⟨"storyTag", .eq, t.firstTag⟩, 3⟩)).items.map
        (fun item => ⟨jsOr item.title "Untitled", jsSubstring (jsOr item.chapterContent "") 1500⟩) ∧
    (∀ ch ∈ (getRelatedChapters net t).1, ch.content.length ≤ 1500) ∧
    (∀ item ∈ (queryWixCMS (net ⟨"BackupChapters", ⟨"storyTag", .eq, t.firstTag⟩, 3⟩)).items,
      1500 < (jsOr item.chapterContent "").length →
        (jsSubstring (jsOr item.chapterContent "") 1500).length = 1500 ∧
        ∃ rest, (jsSubstring (jsOr item.chapterContent "") 1500).data ++ rest =
          (jsOr item.chapterContent "").data) := by
  have hmap : (getRelatedChapters net t).1 =
      (queryWixCMS (net ⟨"BackupChapters", ⟨"storyTag", .eq, t.firstTag⟩, 3⟩)).items.map
        (fun item =>
          ⟨jsOr item.title "Untitled", jsSubstring (jsOr item.chapterContent "") 1500⟩) := by
    simp [getRelatedChapters, h]
  refine ⟨hmap, ?_, ?_⟩
  · intro ch hch
    rw [hmap] at hch
    obtain ⟨item, _, rfl⟩ := List.mem_map.mp hch
    show (jsSubstring (jsOr item.chapterContent "") 1500).length ≤ 1500
    show ((jsOr item.chapterContent "").data.take 1500).length ≤ 1500
    simp [List.length_take]
  · intro item _ hlong
    have hlen : (jsSubstring (jsOr item.chapterContent "") 1500).length =
        min 1500 (jsOr item.chapterContent "").length := by
      show ((jsOr item.chapterContent "").data.take 1500).length = _
      simp [List.length_take]
    constructor
    · rw [hlen]
      omega
    · exact ⟨(jsOr item.chapterContent "").data.drop 1500,
        List.take_append_drop 1500 (jsOr item.chapterContent "").data⟩

/-- A backend returning one chapter whose body has 1501 characters, for
the C7 witness. -/
def c7Body : String := String.mk (List.replicate 1501 (Char.ofNat 97))

/-- The concrete chapter collection for the C7 witness. -/
def c7Net : Query → WixResponse ChapterItem := fun _ => .ok (some [⟨some "T", some c7Body⟩])

/-- Witness for C7: a 1501-character stored body is returned truncated. -/
theorem relatedChapters_truncation_witness :
    (getRelatedChapters c7Net (TagArg.list ["@S"])).1 =
      (queryWixCMS (c7Net ⟨"BackupChapters",
          ⟨"storyTag", .eq, (TagArg.list ["@S"]).firstTag⟩, 3⟩)).items.map
        (fun item =>
          ⟨jsOr item.title "Untitled", jsSubstring (jsOr item.chapterContent "") 1500⟩) ∧
    (∀ ch ∈ (getRelatedChapters c7Net (TagArg.list ["@S"])).1, ch.content.length ≤ 1500) ∧
    (∀ item ∈ (queryWixCMS (c7Net ⟨"BackupChapters",
        ⟨"storyTag", .eq, (TagArg.list ["@S"]).firstTag⟩, 3⟩)).items,
      1500 < (jsOr item.chapterContent "").length →
        (jsSubstring (jsOr item.chapterContent "") 1500).length = 1500 ∧
        ∃ rest, (jsSubstring (jsOr item.chapterContent "") 1500).data ++ rest =
          (jsOr item.chapterContent "").data) :=
  relatedChapters_truncation c7Net (TagArg.list ["@S"]) (by decide)

/-- C6: for a valid characterChat request whose supplied current-session
history is `l`, every outbound request (and at least one is issued) carries
the conversation `[system] ++ last-70-of-l ++ [user]`; when `l` has more
than 70 messages that window has exactly 70 messages and is the final
segment of `l` in original order, and when `l` has at most 70 messages the
window is all of `l`. -/
theorem characterChat_history_window (γ : Type) (be : CmsBackend γ)
    (net : LLMRequest → ModelOutcome) (k : String) (req : CharacterChatReq)
    (l : List ChatMsg) (hmsg : jsBlank req.userMessage = false)
    (hh : req.chatHistory = some l) :
    ((handleCharacterChat be net (some k) req).2.2 ≠ [] ∧
     ∀ r ∈ (handleCharacterChat be net (some k) req).2.2,
       r.messages = ChatMsg.mk "system" (characterChatSystemPrompt be req) ::
         (jsSliceLast 70 l ++ [ChatMsg.mk "user" (req.userMessage.getD "")])) ∧
    (70 < l.length →
      (jsSliceLast 70 l).length = 70 ∧
      List.take (l.length - 70) l ++ jsSliceLast 70 l = l) ∧
    (l.length ≤ 70 → jsSliceLast 70 l = l) := by
  have hmain : (handleCharacterChat be net (some k) req).2.2 =
      (tryModels net
        (ChatMsg.mk "system" (characterChatSystemPrompt be req) ::
          (jsSliceLast 70 l ++ [ChatMsg.mk "user" (req.userMessage.getD "")]))
        0.85 500 [PRIMARY_MODEL, BACKUP_MODEL, TERTIARY_MODEL]).2 := by
    simp [handleCharacterChat, hmsg, hh, callAI]
  refine ⟨⟨?_, ?_⟩, ?_, ?_⟩
  · rw [hmain]
    exact tryModels_attempts_ne_nil net _ 0.85 500 PRIMARY_MODEL [BACKUP_MODEL, TERTIARY_MODEL]
  · rw [hmain]
    exact tryModels_attempt_messages net _ 0.85 500 [PRIMARY_MODEL, BACKUP_MODEL, TERTIARY_MODEL]
  · intro hlen
    constructor
    · show (l.drop (l.length - 70)).length = 70
      rw [List.length_drop]
      omega
    · exact List.take_append_drop (l.length - 70) l
  · intro hlen
    show l.drop (l.length - 70) = l
    have : l.length - 70 = 0 := by omega
    rw [this, List.drop_zero]

/-- A trivial CMS backend for the C6 witness. -/
def c6Backend : CmsBackend Unit :=
  ⟨fun _ => .okMalformed, fun _ => .okMalformed, fun _ => .okMalformed, fun _ => .okMalformed,
   fun _ => none, fun _ => ""⟩

/-- The C6 witness model oracle: every request succeeds. -/
def c6Oracle : LLMRequest → ModelOutcome := fun _ => .ok "reply"

/-- An 80-message current-session history for the C6 witness. -/
def c6History : List ChatMsg := List.replicate 80 (ChatMsg.mk "user" "m")

/-- The concrete characterChat request of the C6 witness. -/
def c6Req : CharacterChatReq :=
  ⟨some "hi", some "Vex", none, none, some ["@Vex"], some ["@Story"], none, some c6History, none⟩

/-- Witness for C6 at an 80-message supplied history. -/
theorem characterChat_history_window_witness :
    ((handleCharacterChat c6Backend c6Oracle (some "k") c6Req).2.2 ≠ [] ∧
     ∀ r ∈ (handleCharacterChat c6Backend c6Oracle (some "k") c6Req).2.2,
       r.messages = ChatMsg.mk "system" (characterChatSystemPrompt c6Backend c6Req) ::
         (jsSliceLast 70 c6History ++ [ChatMsg.mk "user" (c6Req.userMessage.getD "")])) ∧
    (70 < c6History.length →
      (jsSliceLast 70 c6History).length = 70 ∧
      List.take (c6History.length - 70) c6History ++ jsSliceLast 70 c6History = c6History) ∧
    (c6History.length ≤ 70 → jsSliceLast 70 c6History = c6History) :=
  characterChat_history_window Unit c6Backend c6Oracle "k" c6Req c6History (by decide) rfl

/-- Cancellation for string concatenation: equal outer parts force equal
middles. -/
theorem string_append_cancel_mid (q r t a b : String)
    (h : q ++ a ++ r ++ t = q ++ b ++ r ++ t) : a = b := by
  have hd : q.data ++ (a.data ++ (r.data ++ t.data)) =
      q.data ++ (b.data ++ (r.data ++ t.data)) := by
    have h2 := congrArg String.data h
    simpa [String.data_append, List.append_assoc] using h2
  have h3 := List.append_cancel_left hd
  have h4 := List.append_cancel_right h3
  cases a with
  | mk da =>
    cases b with
    | mk db => exact congrArg String.mk h4

set_option maxRecDepth 20000 in
/-- Counterexample to C9 as stated: with an unrecognized persona key the
handler does NOT behave as if the persona were cold_editor — the outbound
request differs, because the prompt interpolates the raw persona key into
the requested marker type. -/
theorem aiCritic_unknown_persona_counterexample :
    (handleAICritic (fun _ => .ok "[]") (some "k") (fun _ => some [])
        (some "x") "story_coach").2 ≠
      (handleAICritic (fun _ => .ok "[]") (some "k") (fun _ => some [])
        (some "x") "cold_editor").2 := by
  decide

/-- C9 (amended): an unrecognized persona key selects the cold_editor
persona text for the critique instructions, and the full prompt is that
text followed by the fixed template with the RAW persona key (first
underscore replaced by a space, uppercased) interpolated as the marker
type — so whenever that interpolation differs from "COLD EDITOR" the
prompt, and hence the handler's outbound request, differs from an actual
cold_editor request. -/
theorem aiCritic_unknown_persona_fallback (text persona : String)
    (h : aiCriticPersonas persona = none)
    (hne : jsToUpperCase (jsReplaceFirstUnderscore persona) ≠ "COLD EDITOR") :
    selectedPersona persona = coldEditorPersona ∧
    buildAICriticPrompt text persona =
      coldEditorPersona ++ aiCriticPromptMid ++
        jsToUpperCase (jsReplaceFirstUnderscore persona) ++ aiCriticPromptTail ++ text ∧
    buildAICriticPrompt text persona ≠ buildAICriticPrompt text "cold_editor" := by
  have hsel : selectedPersona persona = coldEditorPersona := by
    simp [selectedPersona, h]
  have hlhs : buildAICriticPrompt text persona =
      coldEditorPersona ++ aiCriticPromptMid ++
        jsToUpperCase (jsReplaceFirstUnderscore persona) ++ aiCriticPromptTail ++ text := by
    rw [buildAICriticPrompt, hsel]
  refine ⟨hsel, hlhs, ?_⟩
  intro heq
  apply hne
  have hrhs : buildAICriticPrompt text "cold_editor" =
      coldEditorPersona ++ aiCriticPromptMid ++ "COLD EDITOR" ++ aiCriticPromptTail ++ text := by
    rw [buildAICriticPrompt]
    have e1 : selectedPersona "cold_editor" = coldEditorPersona := rfl
    have e2 : jsToUpperCase (jsReplaceFirstUnderscore "cold_editor") = "COLD EDITOR" := rfl
    rw [e1, e2]
  rw [hlhs, hrhs] at heq
  exact string_append_cancel_mid (coldEditorPersona ++ aiCriticPromptMid)
    aiCriticPromptTail text _ _ heq

/-- Witness for C9 (amended) at a concrete unrecognized persona key. -/
theorem aiCritic_unknown_persona_fallback_witness :
    selectedPersona "mystery_muse" = coldEditorPersona ∧
    buildAICriticPrompt "some chapter" "mystery_muse" =
      coldEditorPersona ++ aiCriticPromptMid ++
        jsToUpperCase (jsReplaceFirstUnderscore "mystery_muse") ++ aiCriticPromptTail ++
        "some chapter" ∧
    buildAICriticPrompt "some chapter" "mystery_muse" ≠
      buildAICriticPrompt "some chapter" "cold_editor" :=
  aiCritic_unknown_persona_fallback "some chapter" "mystery_muse" (by decide) (by decide)

/-- The CMS queries `getCatalystIntel` issues, independent of the oracle's
answer: none under the empty guard, else exactly the contains-query on the
Catalyst collection's title field. -/
theorem getCatalystIntel_queries (γ : Type) (stringify : γ → String)
    (net : Query → WixResponse (CatalystItem γ)) (t : TagArg) :
    (getCatalystIntel stringify net t).2 =
      if t.emptyGuard then [] else [⟨"Catalyst", ⟨"title", .contains, t.firstTag⟩, 1⟩] := by
  by_cases h : t.emptyGuard
  · simp [getCatalystIntel, h]
  · simp only [getCatalystIntel, h, Bool.false_eq_true, if_false, if_neg]
    cases (queryWixCMS (net ⟨"Catalyst", ⟨"title", .contains, t.firstTag⟩, 1⟩)).items <;> simp

/-- C10: a `catalystTags` field in a characterChat request is never used —
the handler's entire observable behaviour is unchanged under any value of
that field — and when the handler runs its fetches with a non-empty
character-tag list, the catalyst-intel lookup it issues is the
substring-contains query on catalyst titles keyed by the FIRST CHARACTER
tag. -/
theorem characterChat_catalyst_keying (γ : Type) (be : CmsBackend γ)
    (net : LLMRequest → ModelOutcome) (apiKey : Option String) (req : CharacterChatReq)
    (v : Option (List String)) :
    handleCharacterChat be net apiKey { req with catalystTags := v } =
      handleCharacterChat be net apiKey req ∧
    (jsBlank req.userMessage = false → (tagOfList req.characterTags).emptyGuard = false →
      Query.mk "Catalyst" ⟨"title", .contains, (tagOfList req.characterTags).firstTag⟩ 1 ∈
        (handleCharacterChat be net apiKey req).2.1) := by
  constructor
  · cases req
    rfl
  · intro h1 h2
    have hq := getCatalystIntel_queries γ be.stringifyCatalyst be.catalysts
      (tagOfList req.characterTags)
    rw [h2] at hq
    simp only [if_false, Bool.false_eq_true] at hq
    simp [handleCharacterChat, h1, hq]

/-- A trivial CMS backend for the C10 witness. -/
def c10Backend : CmsBackend Unit :=
  ⟨fun _ => .okMalformed, fun _ => .okMalformed, fun _ => .okMalformed, fun _ => .okMalformed,
   fun _ => none, fun _ => ""⟩

/-- The concrete characterChat request of the C10 witness. -/
def c10Req : CharacterChatReq :=
  ⟨some "hi", some "Vex", none, none, some ["@Vex"], none, none, none, some ["@SomeCatalyst"]⟩

/-- Witness for C10: the handler's catalyst query is keyed by the first
character tag even though the request carries a catalystTags field. -/
theorem characterChat_catalyst_keying_witness :
    Query.mk "Catalyst" ⟨"title", .contains, some "@Vex"⟩ 1 ∈
      (handleCharacterChat c10Backend (fun _ => .ok "reply") (some "k") c10Req).2.1 :=
  (characterChat_catalyst_keying Unit c10Backend (fun _ => .ok "reply") (some "k") c10Req
    none).2 (by decide) (by decide)

end DevilServer
